import Mathlib

/-!
A verification development for the netbox_sd target-generation pipeline.

The Go sources are shallowly embedded: pure functions become Lean functions,
Go pointers become `Option`, Go maps become association lists, Go `panic`
becomes the `GoResult.panics` constructor, and fallible collaborator calls
become `Except` values supplied as parameters.  Machine integers only occur
as ports and address families, far from overflow, and are modelled as `Int`.
-/

namespace NetboxSD

/-! ## Status and configuration constants (pkg/netbox constants, internal/config constants) -/

def StatusIPActive : String := "active"
def StatusIPReserved : String := "reserved"
def StatusIPDeprecated : String := "deprecated"
def StatusIPDHCP : String := "dhcp"
def StatusIPSLAAC : String := "slaac"
def StatusDeviceActive : String := "active"
def InetFamilyAny : String := "any"
def InetFamilyInet : String := "inet"
def InetFamilyInet6 : String := "inet6"
def CustomFieldText : String := "text"
def CustomFieldNumber : String := "integer"
def CustomFieldBool : String := "boolean"

/-! ## Data model -/

/-- `netbox.IP` (pkg/netbox/interface.go).  The Go struct stores `Address` and
`Status`; the method `Family()` derives the address family by parsing the
address string with an external library.  The family is modelled as a stored
field so that `selectAddr`, which only ever consumes `Family()`'s integer
result, can be studied as a function of that integer (including the
malformed-family branch the code guards against). -/
structure IP where
  address : String
  status : String
  family : Int
deriving DecidableEq, Repr

/-- A Prometheus label set (`model.LabelSet`): a string-keyed map, modelled as
an association list whose keys are unique by construction of the operations. -/
abbrev LabelSet := List (String × String)

/-- Map lookup on a `LabelSet`. -/
def lsGet (ls : LabelSet) (k : String) : Option String :=
  (ls.find? (fun p => p.1 == k)).map (fun p => p.2)

/-- Set one key of a `LabelSet`, replacing an existing entry for that key. -/
def lsSet (ls : LabelSet) (k v : String) : LabelSet :=
  match ls with
  | [] => [(k, v)]
  | p :: rest => if p.1 == k then (k, v) :: rest else p :: lsSet rest k v

/-- `model.LabelSet.Merge`: a copy of `dst` with every entry of `src` set
(entries of `src` win on collision). -/
def lsMerge (dst src : LabelSet) : LabelSet :=
  src.foldl (fun acc p => lsSet acc p.1 p.2) dst

/-- `config.Flags` (config.go).  The pointer fields are non-nil after
validation (`validateGroup` fills in defaults), so they are modelled as plain
values. -/
structure Flags where
  includeVMs : Bool
  inetFamily : String
  allAddresses : Bool

/-- `config.Filter` (config.go).  The compiled regular expression is abstracted
to its matching function. -/
structure Filter where
  label : String
  isMatch : String → Bool
  negate : Bool

/-- `config.Group` (config.go); only the fields the target pipeline reads. -/
structure Group where
  file : String
  labels : LabelSet
  port : Option Int
  flags : Flags
  filters : List Filter

/-! ## Address selection (selectAddr, addrExists) -/

/-- `addrExists` checks whether an address literal is already in the result. -/
def addrExists (needle : IP) (haystack : List IP) : Bool :=
  haystack.any (fun x => x.address == needle.address)

/-- The code after `selectAddr`'s loop: when no result was accumulated, fall
back to the first IPv6 and then the first IPv4 address found. -/
def selectFinish (firstInet6 firstInet : Option IP) (result : List IP) : List IP :=
  if result.length = 0 then
    match firstInet6 with
    | some a => result ++ [a]
    | none =>
      match firstInet with
      | some a => result ++ [a]
      | none => result
  else result

/-- The loop of `selectAddr` (part_000, lines 42-101), carrying the mutable
locals `firstInet6`, `firstInet` and `result` as parameters.  Note that the
`break` in the Go source's `case 6` sits inside a `switch` statement, so it
terminates the switch only, never the surrounding `for` loop: every list
element is visited unless the unsupported-family `default` case returns
early. -/
def selectAddrLoop (group : Group) :
    List (Option IP) → Option IP → Option IP → List IP → List IP
  | [], f6, f4, result => selectFinish f6 f4 result
  | none :: rest, f6, f4, result => selectAddrLoop group rest f6 f4 result
  | some addr :: rest, f6, f4, result =>
    if addr.status ≠ StatusIPActive ∧ addr.status ≠ StatusIPDHCP ∧
        addr.status ≠ StatusIPSLAAC then
      selectAddrLoop group rest f6 f4 result
    else if addr.family = 6 then
      if group.flags.inetFamily = InetFamilyInet6 ∨
          group.flags.inetFamily = InetFamilyAny then
        -- firstInet6 is updated to this address when still nil
        if group.flags.allAddresses then
          if addrExists addr result then
            selectAddrLoop group rest (if f6 = none then some addr else f6) f4 result
          else
            selectAddrLoop group rest (if f6 = none then some addr else f6) f4 (result ++ [addr])
        else
          -- the Go `break` only exits the switch: the loop continues
          selectAddrLoop group rest (if f6 = none then some addr else f6) f4 result
      else selectAddrLoop group rest f6 f4 result
    else if addr.family = 4 then
      if group.flags.inetFamily = InetFamilyInet ∨
          group.flags.inetFamily = InetFamilyAny then
        if group.flags.allAddresses then
          if addrExists addr result then
            selectAddrLoop group rest f6 (if f4 = none then some addr else f4) result
          else
            selectAddrLoop group rest f6 (if f4 = none then some addr else f4) (result ++ [addr])
        else selectAddrLoop group rest f6 (if f4 = none then some addr else f4) result
      else selectAddrLoop group rest f6 f4 result
    else
      -- default: unsupported address family, abort with an empty result
      []

/-- `selectAddr` (part_000): filter a candidate address list by the group's
`InetFamily` and `AllAddresses` flags. -/
def selectAddr (addrs : List (Option IP)) (group : Group) : List IP :=
  selectAddrLoop group addrs none none []

/-! ## Specification-side descriptions of address selection

These definitions follow the words of the specification (§4.1), not the
source; they exist to be compared with `selectAddr`. -/

/-- Spec wording: the address passes the lifecycle-status check. -/
def specStatusOK (ip : IP) : Bool :=
  ip.status == StatusIPActive || ip.status == StatusIPDHCP || ip.status == StatusIPSLAAC

/-- Spec wording: the policy admits IPv6 addresses. -/
def specFam6OK (group : Group) : Bool :=
  group.flags.inetFamily == InetFamilyInet6 || group.flags.inetFamily == InetFamilyAny

/-- Spec wording: the policy admits IPv4 addresses. -/
def specFam4OK (group : Group) : Bool :=
  group.flags.inetFamily == InetFamilyInet || group.flags.inetFamily == InetFamilyAny

/-- Spec wording: the first IPv6 candidate, by input order, that passes the
status and family checks. -/
def specFirstInet6 (group : Group) : List (Option IP) → Option IP
  | [] => none
  | none :: rest => specFirstInet6 group rest
  | some ip :: rest =>
    if specStatusOK ip && ip.family == 6 && specFam6OK group then some ip
    else specFirstInet6 group rest

/-- Spec wording: the first IPv4 candidate, by input order, that passes the
status and family checks. -/
def specFirstInet4 (group : Group) : List (Option IP) → Option IP
  | [] => none
  | none :: rest => specFirstInet4 group rest
  | some ip :: rest =>
    if specStatusOK ip && ip.family == 4 && specFam4OK group then some ip
    else specFirstInet4 group rest

/-- The candidates the loop may add to its accumulated result when
`AllAddresses` is set: non-null, status-selected, family admitted by the
policy. -/
def candidateList (group : Group) : List (Option IP) → List IP
  | [] => []
  | none :: rest => candidateList group rest
  | some ip :: rest =>
    if specStatusOK ip &&
        ((ip.family == 6 && specFam6OK group) || (ip.family == 4 && specFam4OK group)) then
      ip :: candidateList group rest
    else candidateList group rest

/-- First-occurrence deduplication by address literal, with an accumulator,
exactly as the loop of `selectAddr` builds its `result` slice. -/
def dedupAcc : List IP → List IP → List IP
  | [], acc => acc
  | a :: rest, acc =>
    if addrExists a acc then dedupAcc rest acc else dedupAcc rest (acc ++ [a])

/-! ## Endpoint strings (IP.ToAddr, convertToTargets, service fan-out) -/

/-- `IP.ToAddr` (pkg/netbox/interface.go): strip a trailing `/` followed by up
to 128 digits (the CIDR suffix) from the address literal. -/
def toAddr (s : String) : String :=
  let rev := s.data.reverse
  let digits := rev.takeWhile Char.isDigit
  let rest := rev.drop digits.length
  match rest with
  | '/' :: rem => if digits.length ≤ 128 then String.mk rem.reverse else s
  | _ => s

/-- One `host:port` endpoint string, IPv6 hosts wrapped in brackets
(service.go lines 151-159 and convertToTargets). -/
def endpointString (ip : IP) (port : Int) : String :=
  if ip.family = 4 then toAddr ip.address ++ ":" ++ toString port
  else "[" ++ toAddr ip.address ++ "]:" ++ toString port

/-- `convertToTargets` (part_000): one target per IP, appending the optional
group port. -/
def convertToTargets (ips : List IP) (port : Option Int) : List String :=
  ips.map fun ip =>
    match port with
    | some p => endpointString ip p
    | none => toAddr ip.address

/-- The nested loops of `getTargetsByService` (service.go lines 148-161):
every selected address crossed with every port. -/
def serviceTargets (ips : List IP) (ports : List Int) : List String :=
  ips.flatMap fun ip => ports.map (endpointString ip)

/-- The port-list rewriting of `getTargetsByService` (service.go lines
132-144): a configured group port replaces the service ports; then, unless
`AllAddresses` is set, a multi-port list is truncated to its first port. -/
def servicePortsUsed (group : Group) (ports : List Int) : List Int :=
  let ports1 := match group.port with
    | some p => [p]
    | none => ports
  if ¬group.flags.allAddresses ∧ ports1.length > 1 then ports1.take 1 else ports1

/-! ## Custom fields (pkg/netbox/custom_field.go, generateCustomFieldLabels) -/

/-- The outcome of a Go computation that can `panic` (here: a failed interface
type assertion such as `cf.Value.(string)`). -/
inductive GoResult (α : Type) where
  | panics : GoResult α
  | value : α → GoResult α
deriving DecidableEq, Repr

/-- Map over a non-panicking result. -/
def GoResult.map (f : α → β) : GoResult α → GoResult β
  | .panics => .panics
  | .value a => .value (f a)

/-- The dynamic type of the `interface{}` stored in `CustomField.Value`.  The
JSON decoder only ever produces strings, numbers and booleans, but the field
is exported for mocking, so other shapes are representable (`vother`).  The
numeric payload is abstracted to the integer that Go's `%d` of `int64(v)`
would print. -/
inductive GoValue where
  | vstr : String → GoValue
  | vnum : Int → GoValue
  | vbool : Bool → GoValue
  | vother : GoValue
deriving DecidableEq, Repr

/-- `netbox.CustomField`: a declared datatype plus an untyped value. -/
structure CustomField where
  datatype : String
  value : GoValue
deriving DecidableEq, Repr

/-- `CustomField.AsString`: an error when the declared datatype is not text,
otherwise the unchecked type assertion `cf.Value.(string)`, which panics when
the stored value is not actually a string.  The `Bool` is whether the returned
Go error is non-nil. -/
def cfAsString (cf : CustomField) : GoResult (String × Bool) :=
  if cf.datatype ≠ CustomFieldText then .value ("", true)
  else
    match cf.value with
    | .vstr s => .value (s, false)
    | _ => .panics

/-- `CustomField.AsFloat`, with the same error/panic structure. -/
def cfAsFloat (cf : CustomField) : GoResult (Int × Bool) :=
  if cf.datatype ≠ CustomFieldNumber then .value (0, true)
  else
    match cf.value with
    | .vnum n => .value (n, false)
    | _ => .panics

/-- `CustomField.AsBool`, with the same error/panic structure. -/
def cfAsBool (cf : CustomField) : GoResult (Bool × Bool) :=
  if cf.datatype ≠ CustomFieldBool then .value (false, true)
  else
    match cf.value with
    | .vbool b => .value (b, false)
    | _ => .panics

/-- A `netbox.CustomFieldMap`, modelled as an association list (`GetAllEntries`
iterates over the underlying Go map; the iteration order is irrelevant to the
facts proved below). -/
abbrev CustomFieldMap := List (String × CustomField)

/-- The callback body of `generateCustomFieldLabels` (part_000 lines 137-183)
applied to one entry: produce the entry's single label (empty for an
unrecognized datatype) and whether a conversion error was observed. -/
def customFieldLabel (key : String) (val : CustomField) : GoResult (LabelSet × Bool) :=
  if val.datatype = CustomFieldText then
    match cfAsString val with
    | .panics => .panics
    | .value (s, err) => .value ([("netbox_" ++ key, s)], err)
  else if val.datatype = CustomFieldNumber then
    match cfAsFloat val with
    | .panics => .panics
    | .value (n, err) => .value ([("netbox_" ++ key, toString n)], err)
  else if val.datatype = CustomFieldBool then
    match cfAsBool val with
    | .panics => .panics
    | .value (b, err) => .value ([("netbox_" ++ key, cond b "true" "false")], err)
  else
    .value ([], false)

/-- The iteration of `generateCustomFieldLabels`, threading the `allLabels`
and `gotError` locals in entry order. -/
def genCFAux : CustomFieldMap → LabelSet → Bool → GoResult (LabelSet × Bool)
  | [], allLabels, gotError => .value (allLabels, gotError)
  | (key, val) :: rest, allLabels, gotError =>
    match customFieldLabel key val with
    | .panics => .panics
    | .value (label, err) => genCFAux rest (lsMerge allLabels label) (gotError || err)

/-- `generateCustomFieldLabels` (part_000): fold the callback over all
entries, merging each entry's label and remembering whether any entry set
`gotError`. -/
def generateCustomFieldLabels (cfm : CustomFieldMap) : GoResult (LabelSet × Bool) :=
  genCFAux cfm [] false

/-! ## Filter evaluation -/

/-- Modelled from the spec: the body of `Group.FiltersMatch` is not among the
source files (only its callers in service.go and part_009/part_003 and its
tests are), so it is modelled from §4.3 of the specification: for each filter
look up the named label, an absent label fails the filter regardless of
`negate`; a present label contributes `isMatch XOR negate`; the filters are
combined by short-circuit AND and the empty list matches. -/
def FiltersMatch (filters : List Filter) (labels : LabelSet) : Bool :=
  match filters with
  | [] => true
  | f :: rest =>
    (match lsGet labels f.label with
      | none => false
      | some v => Bool.xor (f.isMatch v) f.negate) && FiltersMatch rest labels

/-! ## Target state metric values (metrics.go) -/

/-- `TargetState` is a numeric gauge value in metrics.go; the float values are
integral, so `Int` represents them exactly. -/
abbrev TargetState := Int

def TargetActive : TargetState := 1
def TargetSkippedOther : TargetState := 0
def TargetSkippedBadStatus : TargetState := -1
def TargetSkippedBadCustomField : TargetState := -2
def TargetSkippedNoValidIP : TargetState := -3
def TargetSkippedNotMatchingFilters : TargetState := -4

/-! ## Inventory records (pkg/netbox) -/

/-- `netbox.Device` (part_006), restricted to the fields the pipeline reads.
The nested `Name` wrappers (`Rack.Name` and so on) are flattened to their
string. -/
structure Device where
  name : String
  rackName : String
  siteName : String
  tenantName : String
  roleName : String
  platformName : String
  serialNumber : String
  assetTag : String
  status : String
  primaryIP4 : Option IP
  primaryIP6 : Option IP
  customFields : CustomFieldMap
  isVirtual : Bool
deriving DecidableEq, Repr

/-- `netbox.Service` (part_004).  `Device` and `VM` are pointers, at most one
of which is set by the inventory source. -/
structure Service where
  name : String
  device : Option Device
  vm : Option Device
  ports : List Int
  ipAddresses : List (Option IP)
  customFields : CustomFieldMap
deriving DecidableEq, Repr

/-- `netbox.Interface` (pkg/netbox/interface.go), restricted to the fields the
pipeline reads. -/
structure Interface where
  id : Nat
  name : String
  enabled : Bool
  customFields : CustomFieldMap
  device : Option Device
deriving DecidableEq, Repr

/-- One output record of the pipeline (`targetgroup.Group`): the label set and
the endpoint strings. -/
structure TargetRecord where
  labels : LabelSet
  targets : List String
deriving DecidableEq, Repr

/-- The label literal built for a device in `getTargetsByDeviceTag` and
`getTargetsByInterfaceTag` (name, rack, site, tenant, role, platform, serial
number, asset tag). -/
def deviceBaseLabels (dev : Device) : LabelSet :=
  [("netbox_name", dev.name),
   ("netbox_rack", dev.rackName),
   ("netbox_site", dev.siteName),
   ("netbox_tenant", dev.tenantName),
   ("netbox_role", dev.roleName),
   ("netbox_platform", dev.platformName),
   ("netbox_serial_number", dev.serialNumber),
   ("netbox_asset_tag", dev.assetTag)]

/-- The label literal built for a service in `getTargetsByService`: the
service name followed by the device labels. -/
def serviceBaseLabels (serv : Service) (dev : Device) : LabelSet :=
  ("netbox_service", serv.name) :: deviceBaseLabels dev

/-- The `is_vm` marker assigned to the loop-carried `dynLabels` local when a
virtual device is seen. -/
def isVmLabels : LabelSet := [("is_vm", "true")]

/-- The per-item outcome of an assembler loop iteration: the record appended
to the group's result (if any), the `TargetState` observations emitted via
`SetTargetStatusMetric` during the iteration, and the value of the
loop-carried `dynLabels` local after the iteration (the Go variants declare
`dynLabels` outside the loop and never reset it). -/
abbrev ItemOutcome := Option TargetRecord × List TargetState × LabelSet

/-- One iteration of the `getTargetsByDeviceTag` loop (part_003, lines
245-318). -/
def deviceItem (group : Group) (dynLabels : LabelSet) (dev : Device) :
    GoResult ItemOutcome :=
  if dev.status ≠ StatusDeviceActive then
    .value (none, [TargetSkippedBadStatus], dynLabels)
  else
    match generateCustomFieldLabels dev.customFields with
    | .panics => .panics
    | .value (cfLabels, err) =>
      if err then .value (none, [TargetSkippedBadCustomField], dynLabels)
      else
        let dynLabels := if dev.isVirtual then isVmLabels else dynLabels
        let labels :=
          lsMerge (lsMerge (lsMerge (deviceBaseLabels dev) cfLabels) dynLabels) group.labels
        if ¬FiltersMatch group.filters labels then
          .value (none, [TargetSkippedNotMatchingFilters], dynLabels)
        else
          let selected := selectAddr [dev.primaryIP6, dev.primaryIP4] group
          if selected.length = 0 then .value (none, [TargetSkippedNoValidIP], dynLabels)
          else
            .value (some ⟨labels, convertToTargets selected group.port⟩,
              [TargetActive], dynLabels)

/-- One iteration of the `getTargetsByInterfaceTag` loop (part_009, lines
63-156).  `ipLookup` stands for the secondary inventory queries
`GetVirtualInterfaceIPs` and `GetInterfaceIPs`, keyed by the owning device's
virtual flag and the interface id.  Note the filter-mismatch branch of this
variant emits no `TargetState` observation. -/
def interfaceItem (group : Group)
    (ipLookup : Bool → Nat → Except Unit (List (Option IP)))
    (dynLabels : LabelSet) (iface : Interface) : GoResult ItemOutcome :=
  match iface.device with
  | none => .panics
  | some dev =>
    if dev.status ≠ StatusDeviceActive ∨ ¬iface.enabled then
      .value (none, [TargetSkippedBadStatus], dynLabels)
    else
      match generateCustomFieldLabels dev.customFields with
      | .panics => .panics
      | .value (cfLabels1, err1) =>
        if err1 then .value (none, [TargetSkippedBadCustomField], dynLabels)
        else
          match generateCustomFieldLabels iface.customFields with
          | .panics => .panics
          | .value (cfLabels2, err2) =>
            if err2 then .value (none, [TargetSkippedBadCustomField], dynLabels)
            else
              let dynLabels := if dev.isVirtual then isVmLabels else dynLabels
              let labels :=
                lsMerge (lsMerge (lsMerge (lsMerge (deviceBaseLabels dev) cfLabels1)
                  cfLabels2) dynLabels) group.labels
              if ¬FiltersMatch group.filters labels then
                .value (none, [], dynLabels)
              else
                match ipLookup dev.isVirtual iface.id with
                | .error _ => .value (none, [TargetSkippedNoValidIP], dynLabels)
                | .ok addrs =>
                  let selected := selectAddr addrs group
                  if selected.length = 0 then
                    .value (none, [TargetSkippedNoValidIP], dynLabels)
                  else
                    .value (some ⟨labels, convertToTargets selected group.port⟩,
                      [TargetActive], dynLabels)

/-- One iteration of the `getTargetsByService` loop (service.go, lines
52-165). -/
def serviceItem (group : Group) (dynLabels : LabelSet) (serv : Service) :
    GoResult ItemOutcome :=
  if serv.vm.isSome ∧ ¬group.flags.includeVMs then .value (none, [], dynLabels)
  else
    match (match serv.vm with | some d => some d | none => serv.device) with
    | none => .panics
    | some dev =>
      if dev.status ≠ StatusDeviceActive then
        .value (none, [TargetSkippedBadStatus], dynLabels)
      else
        match generateCustomFieldLabels dev.customFields with
        | .panics => .panics
        | .value (cfLabels1, err1) =>
          if err1 then .value (none, [TargetSkippedBadCustomField], dynLabels)
          else
            match generateCustomFieldLabels serv.customFields with
            | .panics => .panics
            | .value (cfLabels2, err2) =>
              if err2 then .value (none, [TargetSkippedBadCustomField], dynLabels)
              else
                let dynLabels := if dev.isVirtual then isVmLabels else dynLabels
                let labels :=
                  lsMerge (lsMerge (lsMerge (lsMerge (serviceBaseLabels serv dev)
                    cfLabels1) cfLabels2) dynLabels) group.labels
                if ¬FiltersMatch group.filters labels then
                  .value (none, [TargetSkippedNotMatchingFilters], dynLabels)
                else
                  let selected := selectAddr serv.ipAddresses group
                  if selected.length = 0 then
                    .value (none, [TargetSkippedNoValidIP], dynLabels)
                  else
                    let ports := servicePortsUsed group serv.ports
                    .value (some ⟨labels, serviceTargets selected ports⟩,
                      [TargetActive], dynLabels)

/-- The `getTargetsByDeviceTag` loop over the queried device list, threading
`dynLabels` and collecting the result records and the emitted states. -/
def deviceTagLoop (group : Group) (dynLabels : LabelSet) :
    List Device → GoResult (List TargetRecord × List TargetState)
  | [] => .value ([], [])
  | dev :: rest =>
    match deviceItem group dynLabels dev with
    | .panics => .panics
    | .value (recOpt, sts, dynLabels') =>
      match deviceTagLoop group dynLabels' rest with
      | .panics => .panics
      | .value (recs, allSts) => .value (recOpt.toList ++ recs, sts ++ allSts)

/-- The `getTargetsByInterfaceTag` loop over the queried interface list. -/
def interfaceTagLoop (group : Group)
    (ipLookup : Bool → Nat → Except Unit (List (Option IP))) (dynLabels : LabelSet) :
    List Interface → GoResult (List TargetRecord × List TargetState)
  | [] => .value ([], [])
  | iface :: rest =>
    match interfaceItem group ipLookup dynLabels iface with
    | .panics => .panics
    | .value (recOpt, sts, dynLabels') =>
      match interfaceTagLoop group ipLookup dynLabels' rest with
      | .panics => .panics
      | .value (recs, allSts) => .value (recOpt.toList ++ recs, sts ++ allSts)

/-- The `getTargetsByService` loop over the queried service list. -/
def serviceLoop (group : Group) (dynLabels : LabelSet) :
    List Service → GoResult (List TargetRecord × List TargetState)
  | [] => .value ([], [])
  | serv :: rest =>
    match serviceItem group dynLabels serv with
    | .panics => .panics
    | .value (recOpt, sts, dynLabels') =>
      match serviceLoop group dynLabels' rest with
      | .panics => .panics
      | .value (recs, allSts) => .value (recOpt.toList ++ recs, sts ++ allSts)

/-! ## The group worker (part_008, worker) -/

/-- The observable state a worker cycle can touch: the group's output file
content, the `netbox_sd_update_error` counter, the `netbox_sd_target_count`
gauge, and the worker's in-memory `targets` local. -/
structure WorkerState where
  fileContent : String
  errorCount : Nat
  targetCount : Nat
  targetsVar : List TargetRecord
deriving DecidableEq, Repr

/-- One worker cycle (part_008, lines 291-344).  `res` is the outcome of the
target-assembler variant dispatched on the group type (all three return `nil`
with an error on a failed inventory query); `writeOk` is whether
`os.WriteFile` succeeds; `marshal` is the YAML serializer.  A failed query
skips the marshal and write and increments the error counter; a failed write
only logs (the counter branch was already decided) and leaves the gauge and
the file as they were. -/
def workerCycle (res : Except Unit (List TargetRecord)) (writeOk : Bool)
    (marshal : List TargetRecord → String) (st : WorkerState) : WorkerState :=
  match res with
  | .error _ => { st with targetsVar := [], errorCount := st.errorCount + 1 }
  | .ok targets =>
    let st := { st with targetsVar := targets }
    if writeOk then
      { st with fileContent := marshal targets, targetCount := targets.length }
    else st

/-- The worker's scheduling loop, abstracted over the per-cycle environments:
each element is one elapsed scan interval's assembler outcome and write
outcome.  There is no backoff and no retry budget: every cycle is processed in
turn. -/
def runWorker (marshal : List TargetRecord → String) :
    List (Except Unit (List TargetRecord) × Bool) → WorkerState → WorkerState
  | [], st => st
  | (res, w) :: rest, st => runWorker marshal rest (workerCycle res w marshal st)

/-! ## Concrete fixtures used to instantiate the theorems -/

/-- A group with no filters, no static labels and no port override. -/
def plainGroup (fam : String) (all : Bool) : Group :=
  { file := "targets.yml", labels := [], port := none,
    flags := { includeVMs := true, inetFamily := fam, allAddresses := all },
    filters := [] }

/-- A filter on a label no assembled label set of the fixtures carries. -/
def absentFilter : Filter :=
  { label := "netbox_absent", isMatch := fun _ => true, negate := false }

/-- A group whose single filter can never match the fixtures' labels. -/
def filterGroup : Group :=
  { file := "targets.yml", labels := [], port := none,
    flags := { includeVMs := true, inetFamily := InetFamilyAny, allAddresses := false },
    filters := [absentFilter] }

/-- An active physical device without custom fields. -/
def exDevice : Device :=
  { name := "dev1", rackName := "r1", siteName := "s1", tenantName := "t1",
    roleName := "role1", platformName := "p1", serialNumber := "sn1",
    assetTag := "at1", status := StatusDeviceActive,
    primaryIP4 := some { address := "10.0.0.1/24", status := StatusIPActive, family := 4 },
    primaryIP6 := some { address := "2001:db8::1/64", status := StatusIPActive, family := 6 },
    customFields := [], isVirtual := false }

/-- An enabled interface on `exDevice`. -/
def exInterface : Interface :=
  { id := 1, name := "eth0", enabled := true, customFields := [],
    device := some exDevice }

/-- A disabled interface on `exDevice`. -/
def disabledInterface : Interface :=
  { id := 2, name := "eth1", enabled := false, customFields := [],
    device := some exDevice }

/-- A two-port service on `exDevice`. -/
def exService : Service :=
  { name := "svc", device := some exDevice, vm := none, ports := [9100, 9200],
    ipAddresses := [some { address := "2001:db8::1/64", status := StatusIPActive, family := 6 }],
    customFields := [] }

/-! ## Auxiliary lemmas -/

lemma specStatusOK_iff (ip : IP) :
    specStatusOK ip = true ↔
      (ip.status = StatusIPActive ∨ ip.status = StatusIPDHCP ∨ ip.status = StatusIPSLAAC) := by
  simp only [specStatusOK, Bool.or_eq_true, beq_iff_eq]
  tauto

lemma specStatusOK_of_not_skip {ip : IP}
    (h : ¬(ip.status ≠ StatusIPActive ∧ ip.status ≠ StatusIPDHCP ∧ ip.status ≠ StatusIPSLAAC)) :
    specStatusOK ip = true := by
  rw [specStatusOK_iff]; tauto

lemma not_skip_of_specStatusOK {ip : IP} (h : specStatusOK ip = true) :
    ¬(ip.status ≠ StatusIPActive ∧ ip.status ≠ StatusIPDHCP ∧ ip.status ≠ StatusIPSLAAC) := by
  rw [specStatusOK_iff] at h; tauto

lemma specStatusOK_false_of_skip {ip : IP}
    (h : ip.status ≠ StatusIPActive ∧ ip.status ≠ StatusIPDHCP ∧ ip.status ≠ StatusIPSLAAC) :
    specStatusOK ip = false := by
  cases hb : specStatusOK ip with
  | false => rfl
  | true => rw [specStatusOK_iff] at hb; tauto

lemma specFam6OK_iff (group : Group) :
    specFam6OK group = true ↔
      (group.flags.inetFamily = InetFamilyInet6 ∨ group.flags.inetFamily = InetFamilyAny) := by
  simp [specFam6OK, Bool.or_eq_true, beq_iff_eq]

lemma specFam4OK_iff (group : Group) :
    specFam4OK group = true ↔
      (group.flags.inetFamily = InetFamilyInet ∨ group.flags.inetFamily = InetFamilyAny) := by
  simp [specFam4OK, Bool.or_eq_true, beq_iff_eq]

/-- First-of-two option combinator used to describe the `firstInet6` and
`firstInet` locals of the selection loop. -/
def optFirst (a b : Option IP) : Option IP :=
  match a with
  | some x => some x
  | none => b

lemma optFirst_none (a : Option IP) : optFirst a none = a := by cases a <;> rfl

lemma ifNone_eq_optFirst (f : Option IP) (a : IP) :
    (if f = none then some a else f) = optFirst f (some a) := by cases f <;> simp [optFirst]

lemma optFirst_absorb (f : Option IP) (a : IP) (z : Option IP) :
    optFirst (optFirst f (some a)) z = optFirst f (some a) := by cases f <;> rfl

lemma selectFinish_empty (f6 f4 : Option IP) :
    selectFinish f6 f4 [] =
      (match f6 with
       | some a => [a]
       | none =>
         match f4 with
         | some a => [a]
         | none => []) := by
  cases f6 <;> cases f4 <;> rfl

lemma specFirstInet6_cons_pos {group : Group} {a : IP} {rest : List (Option IP)}
    (hs : specStatusOK a = true) (h6 : a.family = 6) (hp : specFam6OK group = true) :
    specFirstInet6 group (some a :: rest) = some a := by
  simp [specFirstInet6, hs, h6, hp]

lemma specFirstInet6_cons_neg {group : Group} {a : IP} {rest : List (Option IP)}
    (h : (specStatusOK a && a.family == 6 && specFam6OK group) = false) :
    specFirstInet6 group (some a :: rest) = specFirstInet6 group rest := by
  simp [specFirstInet6, h]

lemma specFirstInet4_cons_pos {group : Group} {a : IP} {rest : List (Option IP)}
    (hs : specStatusOK a = true) (h4 : a.family = 4) (hp : specFam4OK group = true) :
    specFirstInet4 group (some a :: rest) = some a := by
  simp [specFirstInet4, hs, h4, hp]

lemma specFirstInet4_cons_neg {group : Group} {a : IP} {rest : List (Option IP)}
    (h : (specStatusOK a && a.family == 4 && specFam4OK group) = false) :
    specFirstInet4 group (some a :: rest) = specFirstInet4 group rest := by
  simp [specFirstInet4, h]

/-- With `AllAddresses` unset the selection loop keeps its `result` empty and
only tracks the first admissible address of each family; the outcome is
described by the specification's first-IPv6-then-first-IPv4 rule, provided no
admissible address of an unsupported family aborts the traversal. -/
lemma selectAddrLoop_single (group : Group) (hall : group.flags.allAddresses = false) :
    ∀ (addrs : List (Option IP)) (f6 f4 : Option IP),
      (∀ ip : IP, some ip ∈ addrs → specStatusOK ip = true → ip.family = 4 ∨ ip.family = 6) →
      selectAddrLoop group addrs f6 f4 [] =
        selectFinish (optFirst f6 (specFirstInet6 group addrs))
          (optFirst f4 (specFirstInet4 group addrs)) [] := by
  intro addrs
  induction addrs with
  | nil =>
    intro f6 f4 _
    rw [show specFirstInet6 group [] = none from rfl,
      show specFirstInet4 group [] = none from rfl, optFirst_none, optFirst_none]
    rfl
  | cons oa rest ih =>
    intro f6 f4 hgood
    have hgood' : ∀ ip : IP, some ip ∈ rest → specStatusOK ip = true →
        ip.family = 4 ∨ ip.family = 6 :=
      fun ip hm hs => hgood ip (List.mem_cons_of_mem _ hm) hs
    cases oa with
    | none =>
      rw [show specFirstInet6 group (none :: rest) = specFirstInet6 group rest from rfl,
        show specFirstInet4 group (none :: rest) = specFirstInet4 group rest from rfl]
      exact ih f6 f4 hgood'
    | some a =>
      by_cases hskip : a.status ≠ StatusIPActive ∧ a.status ≠ StatusIPDHCP ∧
          a.status ≠ StatusIPSLAAC
      · have hs := specStatusOK_false_of_skip hskip
        rw [show selectAddrLoop group (some a :: rest) f6 f4 [] =
            (if a.status ≠ StatusIPActive ∧ a.status ≠ StatusIPDHCP ∧
                a.status ≠ StatusIPSLAAC then
              selectAddrLoop group rest f6 f4 []
            else if a.family = 6 then
              (if group.flags.inetFamily = InetFamilyInet6 ∨
                  group.flags.inetFamily = InetFamilyAny then
                if group.flags.allAddresses then
                  if addrExists a [] then
                    selectAddrLoop group rest (if f6 = none then some a else f6) f4 []
                  else
                    selectAddrLoop group rest (if f6 = none then some a else f6) f4 ([] ++ [a])
                else selectAddrLoop group rest (if f6 = none then some a else f6) f4 []
              else selectAddrLoop group rest f6 f4 [])
            else if a.family = 4 then
              (if group.flags.inetFamily = InetFamilyInet ∨
                  group.flags.inetFamily = InetFamilyAny then
                if group.flags.allAddresses then
                  if addrExists a [] then
                    selectAddrLoop group rest f6 (if f4 = none then some a else f4) []
                  else
                    selectAddrLoop group rest f6 (if f4 = none then some a else f4) ([] ++ [a])
                else selectAddrLoop group rest f6 (if f4 = none then some a else f4) []
              else selectAddrLoop group rest f6 f4 [])
            else []) from rfl, if_pos hskip,
          specFirstInet6_cons_neg (by simp [hs]), specFirstInet4_cons_neg (by simp [hs])]
        exact ih f6 f4 hgood'
      · have hsOK : specStatusOK a = true := specStatusOK_of_not_skip hskip
        have hfam := hgood a (List.mem_cons_self _ _) hsOK
        simp only [selectAddrLoop, if_neg hskip]
        rcases hfam with h4 | h6
        · rw [if_neg (by rw [h4]; decide), if_pos h4]
          by_cases hp : group.flags.inetFamily = InetFamilyInet ∨
              group.flags.inetFamily = InetFamilyAny
          · rw [if_pos hp, if_neg (by simp [hall]), ifNone_eq_optFirst,
              ih f6 (optFirst f4 (some a)) hgood',
              specFirstInet4_cons_pos hsOK h4 ((specFam4OK_iff group).mpr hp),
              specFirstInet6_cons_neg (by rw [h4]; simp),
              optFirst_absorb]
          · have hp4 : specFam4OK group = false := by
              cases hb : specFam4OK group with
              | false => rfl
              | true => exact absurd ((specFam4OK_iff group).mp hb) hp
            rw [if_neg hp, ih f6 f4 hgood',
              specFirstInet4_cons_neg (by simp [hp4]),
              specFirstInet6_cons_neg (by rw [h4]; simp)]
        · rw [if_pos h6]
          by_cases hp : group.flags.inetFamily = InetFamilyInet6 ∨
              group.flags.inetFamily = InetFamilyAny
          · rw [if_pos hp, if_neg (by simp [hall]), ifNone_eq_optFirst,
              ih (optFirst f6 (some a)) f4 hgood',
              specFirstInet6_cons_pos hsOK h6 ((specFam6OK_iff group).mpr hp),
              specFirstInet4_cons_neg (by rw [h6]; simp),
              optFirst_absorb]
          · have hp6 : specFam6OK group = false := by
              cases hb : specFam6OK group with
              | false => rfl
              | true => exact absurd ((specFam6OK_iff group).mp hb) hp
            rw [if_neg hp, ih f6 f4 hgood',
              specFirstInet6_cons_neg (by simp [hp6]),
              specFirstInet4_cons_neg (by rw [h6]; simp)]

lemma selectFinish_status {f6 f4 : Option IP} {result : List IP}
    (hres : ∀ ip ∈ result, specStatusOK ip = true)
    (h6 : ∀ ip : IP, f6 = some ip → specStatusOK ip = true)
    (h4 : ∀ ip : IP, f4 = some ip → specStatusOK ip = true) :
    ∀ ip ∈ selectFinish f6 f4 result, specStatusOK ip = true := by
  unfold selectFinish
  split
  · cases f6 with
    | some a =>
      intro ip hip
      rcases List.mem_append.mp hip with h | h
      · exact hres _ h
      · rw [List.mem_singleton.mp h]; exact h6 a rfl
    | none =>
      cases f4 with
      | some a =>
        intro ip hip
        rcases List.mem_append.mp hip with h | h
        · exact hres _ h
        · rw [List.mem_singleton.mp h]; exact h4 a rfl
      | none => exact hres
  · exact hres

lemma updated_first_status {f : Option IP} {a : IP} (ha : specStatusOK a = true)
    (hf : ∀ ip : IP, f = some ip → specStatusOK ip = true) :
    ∀ ip : IP, (if f = none then some a else f) = some ip → specStatusOK ip = true := by
  cases f with
  | none =>
    intro ip h
    rw [if_pos rfl] at h
    injection h with h
    rw [← h]; exact ha
  | some x =>
    intro ip h
    rw [if_neg (by simp)] at h
    exact hf ip h

lemma appended_status {result : List IP} {a : IP}
    (hres : ∀ ip ∈ result, specStatusOK ip = true) (ha : specStatusOK a = true) :
    ∀ ip ∈ result ++ [a], specStatusOK ip = true := by
  intro ip h
  rcases List.mem_append.mp h with h | h
  · exact hres _ h
  · rw [List.mem_singleton.mp h]; exact ha

/-- Every element the selection loop can ever return passes the
lifecycle-status check, whatever the policy. -/
lemma selectAddrLoop_status (group : Group) :
    ∀ (addrs : List (Option IP)) (f6 f4 : Option IP) (result : List IP),
      (∀ ip ∈ result, specStatusOK ip = true) →
      (∀ ip : IP, f6 = some ip → specStatusOK ip = true) →
      (∀ ip : IP, f4 = some ip → specStatusOK ip = true) →
      ∀ ip ∈ selectAddrLoop group addrs f6 f4 result, specStatusOK ip = true := by
  intro addrs
  induction addrs with
  | nil =>
    intro f6 f4 result hres h6 h4
    exact selectFinish_status hres h6 h4
  | cons oa rest ih =>
    intro f6 f4 result hres h6 h4
    cases oa with
    | none => exact ih f6 f4 result hres h6 h4
    | some a =>
      by_cases hskip : a.status ≠ StatusIPActive ∧ a.status ≠ StatusIPDHCP ∧
          a.status ≠ StatusIPSLAAC
      · simp only [selectAddrLoop, if_pos hskip]
        exact ih f6 f4 result hres h6 h4
      · have hsOK : specStatusOK a = true := specStatusOK_of_not_skip hskip
        simp only [selectAddrLoop, if_neg hskip]
        by_cases hf6 : a.family = 6
        · rw [if_pos hf6]
          by_cases hp : group.flags.inetFamily = InetFamilyInet6 ∨
              group.flags.inetFamily = InetFamilyAny
          · rw [if_pos hp]
            by_cases hAll : group.flags.allAddresses = true
            · rw [if_pos hAll]
              by_cases hex : addrExists a result = true
              · rw [if_pos hex]
                exact ih _ _ _ hres (updated_first_status hsOK h6) h4
              · rw [if_neg hex]
                exact ih _ _ _ (appended_status hres hsOK) (updated_first_status hsOK h6) h4
            · rw [if_neg hAll]
              exact ih _ _ _ hres (updated_first_status hsOK h6) h4
          · rw [if_neg hp]
            exact ih _ _ _ hres h6 h4
        · rw [if_neg hf6]
          by_cases hf4 : a.family = 4
          · rw [if_pos hf4]
            by_cases hp : group.flags.inetFamily = InetFamilyInet ∨
                group.flags.inetFamily = InetFamilyAny
            · rw [if_pos hp]
              by_cases hAll : group.flags.allAddresses = true
              · rw [if_pos hAll]
                by_cases hex : addrExists a result = true
                · rw [if_pos hex]
                  exact ih _ _ _ hres h6 (updated_first_status hsOK h4)
                · rw [if_neg hex]
                  exact ih _ _ _ (appended_status hres hsOK) h6 (updated_first_status hsOK h4)
              · rw [if_neg hAll]
                exact ih _ _ _ hres h6 (updated_first_status hsOK h4)
            · rw [if_neg hp]
              exact ih _ _ _ hres h6 h4
          · rw [if_neg hf4]
            intro ip h
            exact absurd h (List.not_mem_nil ip)

lemma candidateList_cons_pos {group : Group} {a : IP} {rest : List (Option IP)}
    (h : (specStatusOK a &&
        ((a.family == 6 && specFam6OK group) || (a.family == 4 && specFam4OK group))) = true) :
    candidateList group (some a :: rest) = a :: candidateList group rest := by
  simp only [candidateList, h, if_pos]

lemma candidateList_cons_neg {group : Group} {a : IP} {rest : List (Option IP)}
    (h : (specStatusOK a &&
        ((a.family == 6 && specFam6OK group) || (a.family == 4 && specFam4OK group))) = false) :
    candidateList group (some a :: rest) = candidateList group rest := by
  simp only [candidateList, h]
  rw [if_neg (by simp)]

lemma addrExists_ne_nil {a : IP} {acc : List IP} (h : addrExists a acc = true) : acc ≠ [] := by
  intro hnil
  rw [hnil] at h
  simp [addrExists] at h

lemma selectFinish_nonempty {f6 f4 : Option IP} {acc : List IP} (h : acc ≠ []) :
    selectFinish f6 f4 acc = acc := by
  unfold selectFinish
  rw [if_neg]
  intro hlen
  exact h (List.length_eq_zero.mp hlen)

/-- With `AllAddresses` set, the loop either produces exactly the first-seen
deduplication of the policy's candidates or aborts to an empty result on an
unsupported family. -/
lemma selectAddrLoop_dedup (group : Group) (hall : group.flags.allAddresses = true) :
    ∀ (addrs : List (Option IP)) (f6 f4 : Option IP) (acc : List IP),
      ((f6 ≠ none ∨ f4 ≠ none) → acc ≠ []) →
      selectAddrLoop group addrs f6 f4 acc = dedupAcc (candidateList group addrs) acc
      ∨ selectAddrLoop group addrs f6 f4 acc = [] := by
  intro addrs
  induction addrs with
  | nil =>
    intro f6 f4 acc hinv
    by_cases hacc : acc = []
    · subst hacc
      have h6 : f6 = none := by
        by_contra h
        exact hinv (Or.inl h) rfl
      have h4 : f4 = none := by
        by_contra h
        exact hinv (Or.inr h) rfl
      subst h6; subst h4
      exact Or.inl rfl
    · exact Or.inl (selectFinish_nonempty hacc)
  | cons oa rest ih =>
    intro f6 f4 acc hinv
    cases oa with
    | none => exact ih f6 f4 acc hinv
    | some a =>
      by_cases hskip : a.status ≠ StatusIPActive ∧ a.status ≠ StatusIPDHCP ∧
          a.status ≠ StatusIPSLAAC
      · have hs := specStatusOK_false_of_skip hskip
        simp only [selectAddrLoop, if_pos hskip]
        rw [candidateList_cons_neg (by simp [hs])]
        exact ih f6 f4 acc hinv
      · have hsOK : specStatusOK a = true := specStatusOK_of_not_skip hskip
        simp only [selectAddrLoop, if_neg hskip]
        by_cases hf6 : a.family = 6
        · rw [if_pos hf6]
          by_cases hp : group.flags.inetFamily = InetFamilyInet6 ∨
              group.flags.inetFamily = InetFamilyAny
          · have hp6 : specFam6OK group = true := (specFam6OK_iff group).mpr hp
            rw [if_pos hp, if_pos hall,
              candidateList_cons_pos (by simp [hsOK, hf6, hp6])]
            by_cases hex : addrExists a acc = true
            · rw [if_pos hex]
              simp only [dedupAcc, if_pos hex]
              exact ih _ _ _ (fun _ => addrExists_ne_nil hex)
            · rw [if_neg hex]
              simp only [dedupAcc, if_neg hex]
              exact ih _ _ _ (fun _ => by simp)
          · have hp6 : specFam6OK group = false := by
              cases hb : specFam6OK group with
              | false => rfl
              | true => exact absurd ((specFam6OK_iff group).mp hb) hp
            rw [if_neg hp, candidateList_cons_neg (by rw [hf6]; simp [hp6])]
            exact ih f6 f4 acc hinv
        · rw [if_neg hf6]
          by_cases hf4 : a.family = 4
          · rw [if_pos hf4]
            by_cases hp : group.flags.inetFamily = InetFamilyInet ∨
                group.flags.inetFamily = InetFamilyAny
            · have hp4 : specFam4OK group = true := (specFam4OK_iff group).mpr hp
              rw [if_pos hp, if_pos hall,
                candidateList_cons_pos (by simp [hsOK, hf4, hp4])]
              by_cases hex : addrExists a acc = true
              · rw [if_pos hex]
                simp only [dedupAcc, if_pos hex]
                exact ih _ _ _ (fun _ => addrExists_ne_nil hex)
              · rw [if_neg hex]
                simp only [dedupAcc, if_neg hex]
                exact ih _ _ _ (fun _ => by simp)
            · have hp4 : specFam4OK group = false := by
                cases hb : specFam4OK group with
                | false => rfl
                | true => exact absurd ((specFam4OK_iff group).mp hb) hp
              rw [if_neg hp, candidateList_cons_neg (by rw [hf4]; simp [hp4])]
              exact ih f6 f4 acc hinv
          · rw [if_neg hf4]
            exact Or.inr rfl

lemma dedupAcc_pairwise :
    ∀ (cs acc : List IP), acc.Pairwise (fun x y => x.address ≠ y.address) →
      (dedupAcc cs acc).Pairwise (fun x y => x.address ≠ y.address) := by
  intro cs
  induction cs with
  | nil => intro acc h; exact h
  | cons c rest ih =>
    intro acc h
    simp only [dedupAcc]
    by_cases hex : addrExists c acc = true
    · rw [if_pos hex]
      exact ih acc h
    · rw [if_neg hex]
      apply ih
      rw [List.pairwise_append]
      refine ⟨h, List.pairwise_singleton _ _, ?_⟩
      intro x hx y hy
      rw [List.mem_singleton.mp hy]
      intro heq
      apply hex
      unfold addrExists
      rw [List.any_eq_true]
      exact ⟨x, hx, beq_iff_eq.mpr heq⟩

lemma dedupAcc_first :
    ∀ (cs acc : List IP) (ip : IP), ip ∈ dedupAcc cs acc →
      ip ∈ acc ∨ (addrExists ip acc = false ∧
        cs.find? (fun c => c.address == ip.address) = some ip) := by
  intro cs
  induction cs with
  | nil => intro acc ip h; exact Or.inl h
  | cons c rest ih =>
    intro acc ip h
    simp only [dedupAcc] at h
    by_cases hex : addrExists c acc = true
    · rw [if_pos hex] at h
      rcases ih acc ip h with h' | ⟨hne, hfind⟩
      · exact Or.inl h'
      · refine Or.inr ⟨hne, ?_⟩
        have hcb : (c.address == ip.address) = false := by
          by_contra hcb
          have hceq : c.address = ip.address :=
            beq_iff_eq.mp (eq_true_of_ne_false hcb)
          have htrue : addrExists ip acc = true := by
            unfold addrExists at hex ⊢
            rw [← hceq]
            exact hex
          rw [htrue] at hne
          exact Bool.noConfusion hne
        rw [List.find?_cons_of_neg _ (by simp [hcb]), hfind]
    · rw [if_neg hex] at h
      rcases ih (acc ++ [c]) ip h with h' | ⟨hne, hfind⟩
      · rcases List.mem_append.mp h' with h'' | h''
        · exact Or.inl h''
        · rw [List.mem_singleton.mp h'']
          refine Or.inr ⟨Bool.eq_false_iff.mpr hex, ?_⟩
          rw [List.find?_cons_of_pos _ (by simp)]
      · have hsplit : (addrExists ip acc || (c.address == ip.address)) = false := by
          rw [← hne]
          unfold addrExists
          rw [List.any_append]
          simp [List.any]
        have h1 : addrExists ip acc = false := by
          rcases Bool.or_eq_false_iff.mp hsplit with ⟨ha, _⟩
          exact ha
        have h2 : (c.address == ip.address) = false := by
          rcases Bool.or_eq_false_iff.mp hsplit with ⟨_, hb⟩
          exact hb
        refine Or.inr ⟨h1, ?_⟩
        rw [List.find?_cons_of_neg _ (by simp [h2]), hfind]

lemma serviceTargets_length (ips : List IP) (ports : List Int) :
    (serviceTargets ips ports).length = ips.length * ports.length := by
  induction ips with
  | nil => simp [serviceTargets]
  | cons ip rest ih =>
    simp only [serviceTargets] at ih ⊢
    rw [List.flatMap_cons, List.length_append, List.length_map, ih, List.length_cons]
    ring

lemma servicePortsUsed_single {group : Group} (ports : List Int)
    (hall : group.flags.allAddresses = false) :
    (servicePortsUsed group ports).length ≤ 1 := by
  unfold servicePortsUsed
  rcases hport : group.port with _ | p <;>
    simp only [hport, hall] <;> split <;> simp_all [List.length_take]

lemma customFieldLabel_no_error (key : String) (val : CustomField) :
    customFieldLabel key val = .panics ∨
      ∃ l, customFieldLabel key val = .value (l, false) := by
  rcases val with ⟨dt, v⟩
  unfold customFieldLabel
  by_cases h1 : dt = CustomFieldText
  · subst h1
    rw [if_pos rfl]
    unfold cfAsString
    rw [if_neg (by simp)]
    cases v with
    | vstr s => exact Or.inr ⟨_, rfl⟩
    | vnum n => exact Or.inl rfl
    | vbool b => exact Or.inl rfl
    | vother => exact Or.inl rfl
  · rw [if_neg h1]
    by_cases h2 : dt = CustomFieldNumber
    · subst h2
      rw [if_pos rfl]
      unfold cfAsFloat
      rw [if_neg (by simp)]
      cases v with
      | vstr s => exact Or.inl rfl
      | vnum n => exact Or.inr ⟨_, rfl⟩
      | vbool b => exact Or.inl rfl
      | vother => exact Or.inl rfl
    · rw [if_neg h2]
      by_cases h3 : dt = CustomFieldBool
      · subst h3
        rw [if_pos rfl]
        unfold cfAsBool
        rw [if_neg (by simp)]
        cases v with
        | vstr s => exact Or.inl rfl
        | vnum n => exact Or.inl rfl
        | vbool b => exact Or.inr ⟨_, rfl⟩
        | vother => exact Or.inl rfl
      · rw [if_neg h3]
        exact Or.inr ⟨_, rfl⟩

/-- The error-accumulating local of `generateCustomFieldLabels` can never end
up non-nil: each datatype case calls the accessor whose error condition the
case check already excluded.  A datatype/value mismatch panics instead. -/
lemma genCFAux_no_error :
    ∀ (cfm : CustomFieldMap) (acc : LabelSet),
      genCFAux cfm acc false = .panics ∨
        ∃ ls, genCFAux cfm acc false = .value (ls, false) := by
  intro cfm
  induction cfm with
  | nil => intro acc; exact Or.inr ⟨acc, rfl⟩
  | cons kv rest ih =>
    intro acc
    rcases kv with ⟨key, val⟩
    rcases customFieldLabel_no_error key val with hp | ⟨l, hv⟩
    · left
      simp [genCFAux, hp]
    · simp only [genCFAux, hv, Bool.or_false, Bool.false_or]
      exact ih (lsMerge acc l)

lemma generateCustomFieldLabels_no_error (cfm : CustomFieldMap) :
    generateCustomFieldLabels cfm = .panics ∨
      ∃ ls, generateCustomFieldLabels cfm = .value (ls, false) :=
  genCFAux_no_error cfm []

lemma deviceItem_filter_mismatch {group : Group} {dyn : LabelSet} {dev : Device}
    {cls : LabelSet}
    (hstat : dev.status = StatusDeviceActive)
    (hcf : generateCustomFieldLabels dev.customFields = GoResult.value (cls, false))
    (hfil : FiltersMatch group.filters
      (lsMerge (lsMerge (lsMerge (deviceBaseLabels dev) cls)
        (if dev.isVirtual then isVmLabels else dyn)) group.labels) = false) :
    deviceItem group dyn dev =
      .value (none, [TargetSkippedNotMatchingFilters],
        if dev.isVirtual then isVmLabels else dyn) := by
  unfold deviceItem
  rw [if_neg (by rw [hstat]; exact fun h => h rfl), hcf]
  simp only [hfil, Bool.false_eq_true, not_false_iff, if_pos, if_neg]

lemma serviceItem_filter_mismatch {group : Group} {dyn : LabelSet} {serv : Service}
    {dev : Device} {cls1 cls2 : LabelSet}
    (hvm : serv.vm = none ∨ group.flags.includeVMs = true)
    (hdev : (match serv.vm with | some d => some d | none => serv.device) = some dev)
    (hstat : dev.status = StatusDeviceActive)
    (hcf1 : generateCustomFieldLabels dev.customFields = GoResult.value (cls1, false))
    (hcf2 : generateCustomFieldLabels serv.customFields = GoResult.value (cls2, false))
    (hfil : FiltersMatch group.filters
      (lsMerge (lsMerge (lsMerge (lsMerge (serviceBaseLabels serv dev) cls1) cls2)
        (if dev.isVirtual then isVmLabels else dyn)) group.labels) = false) :
    serviceItem group dyn serv =
      .value (none, [TargetSkippedNotMatchingFilters],
        if dev.isVirtual then isVmLabels else dyn) := by
  unfold serviceItem
  rw [if_neg (by
    rintro ⟨hsome, hnotvm⟩
    rcases hvm with h | h
    · rw [h] at hsome; exact Bool.noConfusion hsome
    · exact hnotvm h)]
  simp only [hdev]
  rw [if_neg (by rw [hstat]; exact fun h => h rfl)]
  simp only [hcf1]
  rw [if_neg (by simp)]
  simp only [hcf2]
  rw [if_neg (by simp)]
  simp only [hfil, Bool.false_eq_true, not_false_iff, if_pos]

lemma interfaceItem_filter_mismatch {group : Group}
    {ipLookup : Bool → Nat → Except Unit (List (Option IP))} {dyn : LabelSet}
    {iface : Interface} {dev : Device} {cls1 cls2 : LabelSet}
    (hdev : iface.device = some dev)
    (hstat : dev.status = StatusDeviceActive)
    (hen : iface.enabled = true)
    (hcf1 : generateCustomFieldLabels dev.customFields = GoResult.value (cls1, false))
    (hcf2 : generateCustomFieldLabels iface.customFields = GoResult.value (cls2, false))
    (hfil : FiltersMatch group.filters
      (lsMerge (lsMerge (lsMerge (lsMerge (deviceBaseLabels dev) cls1) cls2)
        (if dev.isVirtual then isVmLabels else dyn)) group.labels) = false) :
    interfaceItem group ipLookup dyn iface =
      .value (none, [], if dev.isVirtual then isVmLabels else dyn) := by
  unfold interfaceItem
  simp only [hdev]
  rw [if_neg (by
    rintro (h | h)
    · rw [hstat] at h; exact h rfl
    · rw [hen] at h; exact h rfl)]
  simp only [hcf1]
  rw [if_neg (by simp)]
  simp only [hcf2]
  rw [if_neg (by simp)]
  simp only [hfil, Bool.false_eq_true, not_false_iff, if_pos]

lemma deviceTagLoop_cons_skip {group : Group} {dyn : LabelSet} {dev : Device}
    {rest : List Device} {sts : List TargetState} {dyn2 : LabelSet}
    (h : deviceItem group dyn dev = .value (none, sts, dyn2)) :
    deviceTagLoop group dyn (dev :: rest) =
      GoResult.map (fun p => (p.1, sts ++ p.2)) (deviceTagLoop group dyn2 rest) := by
  simp only [deviceTagLoop, h]
  cases deviceTagLoop group dyn2 rest with
  | panics => rfl
  | value p => rfl

lemma serviceLoop_cons_skip {group : Group} {dyn : LabelSet} {serv : Service}
    {rest : List Service} {sts : List TargetState} {dyn2 : LabelSet}
    (h : serviceItem group dyn serv = .value (none, sts, dyn2)) :
    serviceLoop group dyn (serv :: rest) =
      GoResult.map (fun p => (p.1, sts ++ p.2)) (serviceLoop group dyn2 rest) := by
  simp only [serviceLoop, h]
  cases serviceLoop group dyn2 rest with
  | panics => rfl
  | value p => rfl

lemma interfaceTagLoop_cons_skip {group : Group}
    {ipLookup : Bool → Nat → Except Unit (List (Option IP))} {dyn : LabelSet}
    {iface : Interface} {rest : List Interface} {sts : List TargetState} {dyn2 : LabelSet}
    (h : interfaceItem group ipLookup dyn iface = .value (none, sts, dyn2)) :
    interfaceTagLoop group ipLookup dyn (iface :: rest) =
      GoResult.map (fun p => (p.1, sts ++ p.2)) (interfaceTagLoop group ipLookup dyn2 rest) := by
  simp only [interfaceTagLoop, h]
  cases interfaceTagLoop group ipLookup dyn2 rest with
  | panics => rfl
  | value p => rfl

/-- An admissible-status address of an unsupported family forces the loop to
return empty from wherever it stands: every branch of the traversal either
recurses or is the aborting default branch itself, so the malformed entry is
always reached. -/
lemma selectAddrLoop_bad_family (group : Group) {ip : IP}
    (hstat : specStatusOK ip = true) (h4 : ip.family ≠ 4) (h6 : ip.family ≠ 6) :
    ∀ (addrs : List (Option IP)) (f6 f4 : Option IP) (result : List IP),
      some ip ∈ addrs → selectAddrLoop group addrs f6 f4 result = [] := by
  intro addrs
  induction addrs with
  | nil =>
    intro f6 f4 result h
    exact absurd h (List.not_mem_nil _)
  | cons oa rest ih =>
    intro f6 f4 result hmem
    cases oa with
    | none =>
      have hm : some ip ∈ rest := by
        rcases List.mem_cons.mp hmem with h | h
        · exact absurd h (by simp)
        · exact h
      exact ih f6 f4 result hm
    | some a =>
      rcases List.mem_cons.mp hmem with heq | hm
      · have ha : ip = a := by injection heq
        subst ha
        simp only [selectAddrLoop, if_neg (not_skip_of_specStatusOK hstat),
          if_neg h6, if_neg h4]
      · by_cases hskip : a.status ≠ StatusIPActive ∧ a.status ≠ StatusIPDHCP ∧
            a.status ≠ StatusIPSLAAC
        · simp only [selectAddrLoop, if_pos hskip]
          exact ih f6 f4 result hm
        · simp only [selectAddrLoop, if_neg hskip]
          by_cases hf6 : a.family = 6
          · rw [if_pos hf6]
            by_cases hp : group.flags.inetFamily = InetFamilyInet6 ∨
                group.flags.inetFamily = InetFamilyAny
            · rw [if_pos hp]
              by_cases hAll : group.flags.allAddresses = true
              · rw [if_pos hAll]
                by_cases hex : addrExists a result = true
                · rw [if_pos hex]; exact ih _ _ _ hm
                · rw [if_neg hex]; exact ih _ _ _ hm
              · rw [if_neg hAll]; exact ih _ _ _ hm
            · rw [if_neg hp]; exact ih _ _ _ hm
          · rw [if_neg hf6]
            by_cases hf4 : a.family = 4
            · rw [if_pos hf4]
              by_cases hp : group.flags.inetFamily = InetFamilyInet ∨
                  group.flags.inetFamily = InetFamilyAny
              · rw [if_pos hp]
                by_cases hAll : group.flags.allAddresses = true
                · rw [if_pos hAll]
                  by_cases hex : addrExists a result = true
                  · rw [if_pos hex]; exact ih _ _ _ hm
                  · rw [if_neg hex]; exact ih _ _ _ hm
                · rw [if_neg hAll]; exact ih _ _ _ hm
              · rw [if_neg hp]; exact ih _ _ _ hm
            · rw [if_neg hf4]

/-! ## Claims -/

/-- C1: when the inventory query step of a worker cycle fails, the cycle
performs no write to the group's output file (its content is byte-identical
before and after the cycle), the group's update-error counter is incremented
by one, and the worker then simply continues with its remaining scheduled
cycles. -/
theorem worker_query_failure_all_or_nothing :
    ∀ (e : Unit) (writeOk : Bool) (marshal : List TargetRecord → String)
      (st : WorkerState) (rest : List (Except Unit (List TargetRecord) × Bool)),
      (workerCycle (Except.error e) writeOk marshal st).fileContent = st.fileContent
      ∧ (workerCycle (Except.error e) writeOk marshal st).errorCount = st.errorCount + 1
      ∧ runWorker marshal ((Except.error e, writeOk) :: rest) st
          = runWorker marshal rest (workerCycle (Except.error e) writeOk marshal st) :=
  fun _ _ _ _ _ => ⟨rfl, rfl, rfl⟩

/-- C4: at the concrete field map whose single entry declares datatype text
but stores a number, the label generator panics through the unchecked type
assertion instead of returning a non-nil error (the accessor error branches
are unreachable because the switch already matched the datatype). -/
theorem generateCustomFieldLabels_mismatch_panics :
    generateCustomFieldLabels
      [("foo", { datatype := CustomFieldText, value := GoValue.vnum 3 })]
      = GoResult.panics := rfl

/-- C9 counterexample: after a successful assembly whose file write fails,
the update-error counter is left at 0 — it is not incremented as the claim
states. -/
theorem worker_write_failure_counter_counterexample :
    (workerCycle (Except.ok []) false (fun _ => "")
      { fileContent := "old", errorCount := 0, targetCount := 0, targetsVar := [] }).errorCount
      = 0
    ∧ (0 : Nat) ≠ 0 + 1 := ⟨rfl, by decide⟩

/-- C9 amended: when the assembler succeeds but the write fails, the failure
is only logged: the whole worker state is unchanged except that the in-memory
target list keeps the newly assembled result (no rollback and no retry within
the cycle); in particular the update-error counter is not incremented and the
file content is untouched. -/
theorem worker_write_failure_no_rollback :
    ∀ (targets : List TargetRecord) (marshal : List TargetRecord → String)
      (st : WorkerState),
      workerCycle (Except.ok targets) false marshal st =
        { st with targetsVar := targets } :=
  fun _ _ _ => rfl

/-- C10: an interface whose enabled flag is false contributes no record and
is recorded as SkippedBadStatus, even when its owning device is active. -/
theorem interface_disabled_skipped :
    ∀ (group : Group) (ipLookup : Bool → Nat → Except Unit (List (Option IP)))
      (dyn : LabelSet) (iface : Interface) (dev : Device),
      iface.device = some dev →
      dev.status = StatusDeviceActive →
      iface.enabled = false →
      interfaceItem group ipLookup dyn iface =
        GoResult.value (none, [TargetSkippedBadStatus], dyn) := by
  intro group look dyn iface dev hdev hstat hen
  unfold interfaceItem
  simp only [hdev]
  rw [if_pos (Or.inr (by rw [hen]; exact fun h => Bool.noConfusion h))]

/-- C10 witness: the disabled interface fixture on the active device fixture
is skipped with SkippedBadStatus. -/
theorem interface_disabled_skipped_witness :
    interfaceItem filterGroup (fun _ _ => Except.ok []) [] disabledInterface
      = GoResult.value (none, [TargetSkippedBadStatus], []) :=
  interface_disabled_skipped filterGroup (fun _ _ => Except.ok []) []
    disabledInterface exDevice rfl rfl rfl

/-- C5: filter evaluation is the conjunction over all filters, where a filter
whose label is absent fails regardless of its negate flag, a filter whose
label is present evaluates to isMatch XOR negate, and the empty filter list
matches. -/
theorem filtersMatch_and_xor_semantics :
    ∀ (fs : List Filter) (ls : LabelSet),
      (FiltersMatch fs ls = true ↔
        ∀ f ∈ fs, ∃ v, lsGet ls f.label = some v ∧ Bool.xor (f.isMatch v) f.negate = true)
      ∧ FiltersMatch [] ls = true
      ∧ (∀ f ∈ fs, lsGet ls f.label = none → FiltersMatch fs ls = false) := by
  intro fs ls
  have hiff : FiltersMatch fs ls = true ↔
      ∀ f ∈ fs, ∃ v, lsGet ls f.label = some v ∧ Bool.xor (f.isMatch v) f.negate = true := by
    induction fs with
    | nil => simp [FiltersMatch]
    | cons f rest ih =>
      cases hb : lsGet ls f.label with
      | none => simp [FiltersMatch, hb, ih]
      | some v => simp [FiltersMatch, hb, ih, List.forall_mem_cons]
  refine ⟨hiff, rfl, ?_⟩
  intro f hf hnone
  cases hb : FiltersMatch fs ls with
  | false => rfl
  | true =>
    exfalso
    rcases hiff.mp hb f hf with ⟨v, hv, _⟩
    rw [hnone] at hv
    exact Option.noConfusion hv

/-- C5 witness: a filter on an absent label fails on a concrete label set. -/
theorem filtersMatch_and_xor_semantics_witness :
    FiltersMatch [absentFilter] [("netbox_name", "dev1")] = false :=
  (filtersMatch_and_xor_semantics [absentFilter] [("netbox_name", "dev1")]).2.2
    absentFilter (List.mem_singleton.mpr rfl) rfl

/-- C6: whenever the input list contains a non-null address that passes the
lifecycle-status check but whose family is neither 4 nor 6, the selector
returns the empty result, for every policy.  (The `break` in the IPv6 branch
of the Go switch only exits the switch, so the traversal always reaches the
malformed entry or aborts on an earlier one.) -/
theorem selectAddr_unsupported_family_aborts :
    ∀ (addrs : List (Option IP)) (group : Group) (ip : IP),
      some ip ∈ addrs →
      (ip.status = StatusIPActive ∨ ip.status = StatusIPDHCP ∨ ip.status = StatusIPSLAAC) →
      ip.family ≠ 4 → ip.family ≠ 6 →
      selectAddr addrs group = [] := by
  intro addrs group ip hmem hstat h4 h6
  exact selectAddrLoop_bad_family group ((specStatusOK_iff ip).mpr hstat) h4 h6
    addrs none none [] hmem

/-- C6 witness: an active family-5 entry after an active IPv6 entry still
empties the result, even with `allAddresses=false` and a matching IPv6 seen
first. -/
theorem selectAddr_unsupported_family_aborts_witness :
    selectAddr
      [some { address := "2001:db8::7", status := "active", family := 6 },
       some { address := "fe80::bad", status := "active", family := 5 }]
      (plainGroup InetFamilyAny false) = [] :=
  selectAddr_unsupported_family_aborts
    [some { address := "2001:db8::7", status := "active", family := 6 },
     some { address := "fe80::bad", status := "active", family := 5 }]
    (plainGroup InetFamilyAny false)
    { address := "fe80::bad", status := "active", family := 5 }
    (by simp) (Or.inl rfl) (by decide) (by decide)

/-- C7: the selector's output only ever contains addresses that pass the
lifecycle-status check (reserved and deprecated never appear), and with
`allAddresses=true` no two output entries share an address literal — each
output entry is the first candidate carrying its literal, with that first
occurrence's status value. -/
theorem selectAddr_output_wellformed :
    ∀ (addrs : List (Option IP)) (group : Group),
      (∀ ip ∈ selectAddr addrs group,
        ip.status = StatusIPActive ∨ ip.status = StatusIPDHCP ∨ ip.status = StatusIPSLAAC)
      ∧ (group.flags.allAddresses = true →
          (selectAddr addrs group).Pairwise (fun a b => a.address ≠ b.address)
          ∧ ∀ ip ∈ selectAddr addrs group,
              (candidateList group addrs).find? (fun c => c.address == ip.address)
                = some ip) := by
  intro addrs group
  constructor
  · intro ip h
    have hs := selectAddrLoop_status group addrs none none []
      (fun ip h => absurd h (List.not_mem_nil _))
      (fun ip h => Option.noConfusion h)
      (fun ip h => Option.noConfusion h) ip h
    exact (specStatusOK_iff ip).mp hs
  · intro hall
    have hinv : ((none : Option IP) ≠ none ∨ (none : Option IP) ≠ none) →
        ([] : List IP) ≠ [] := by
      intro h
      rcases h with h | h <;> exact absurd rfl h
    rcases selectAddrLoop_dedup group hall addrs none none [] hinv with heq | heq
    · constructor
      · show (selectAddr addrs group).Pairwise _
        unfold selectAddr
        rw [heq]
        exact dedupAcc_pairwise _ [] List.Pairwise.nil
      · intro ip h
        have h' : ip ∈ dedupAcc (candidateList group addrs) [] := by
          rw [← heq]
          exact h
        rcases dedupAcc_first _ [] ip h' with hmem | ⟨_, hfind⟩
        · exact absurd hmem (List.not_mem_nil _)
        · exact hfind
    · constructor
      · show (selectAddr addrs group).Pairwise _
        unfold selectAddr
        rw [heq]
        exact List.Pairwise.nil
      · intro ip h
        have h' : ip ∈ ([] : List IP) := by
          rw [← heq]
          exact h
        exact absurd h' (List.not_mem_nil _)

/-- C7 witness: on a list with a duplicated IPv6 literal and
`allAddresses=true`, the output has pairwise distinct literals and its first
element is found as the first candidate of its literal. -/
theorem selectAddr_output_wellformed_witness :
    (selectAddr
      [some { address := "2001:db8::1", status := "active", family := 6 },
       some { address := "2001:db8::1", status := "slaac", family := 6 },
       some { address := "10.0.0.1", status := "active", family := 4 }]
      (plainGroup InetFamilyAny true)).Pairwise (fun a b => a.address ≠ b.address) :=
  ((selectAddr_output_wellformed
    [some { address := "2001:db8::1", status := "active", family := 6 },
     some { address := "2001:db8::1", status := "slaac", family := 6 },
     some { address := "10.0.0.1", status := "active", family := 4 }]
    (plainGroup InetFamilyAny true)).2 rfl).1

/-- C2 counterexample: with `allAddresses=false` and `family=any`, an input
holding an active IPv4 first, then an active address of family 5, then an
active IPv6 makes the selector return the empty list, although both an IPv6
and an IPv4 candidate passing the status and family checks are present and
the claim requires the first passing IPv6 candidate. -/
theorem selectAddr_single_selection_counterexample :
    selectAddr
      [some { address := "10.0.0.9", status := "active", family := 4 },
       some { address := "fe80::bad", status := "active", family := 5 },
       some { address := "2001:db8::7", status := "active", family := 6 }]
      (plainGroup InetFamilyAny false) = []
    ∧ ([] : List IP) ≠ [{ address := "2001:db8::7", status := "active", family := 6 }]
    ∧ specFirstInet6 (plainGroup InetFamilyAny false)
        [some { address := "10.0.0.9", status := "active", family := 4 },
         some { address := "fe80::bad", status := "active", family := 5 },
         some { address := "2001:db8::7", status := "active", family := 6 }]
        = some { address := "2001:db8::7", status := "active", family := 6 } := by
  refine ⟨by decide, by decide, by decide⟩

/-- C2 amended: with `allAddresses=false`, and provided every non-null
address that passes the status check has family 4 or 6 (otherwise the
selector aborts to an empty result, per the unsupported-family rule), the
result is exactly the first IPv6 candidate passing the status and family
checks; the first IPv4 candidate if no such IPv6 candidate exists; empty if
neither exists — in particular, the result never holds more than one
address, and whenever a passing IPv6 candidate exists the result is exactly
the first one. -/
theorem selectAddr_single_address_selection :
    ∀ (addrs : List (Option IP)) (group : Group),
      group.flags.allAddresses = false →
      (∀ ip : IP, some ip ∈ addrs → specStatusOK ip = true →
        ip.family = 4 ∨ ip.family = 6) →
      selectAddr addrs group =
        (match specFirstInet6 group addrs with
         | some a => [a]
         | none =>
           match specFirstInet4 group addrs with
           | some a => [a]
           | none => [])
      ∧ (selectAddr addrs group).length ≤ 1
      ∧ (∀ a : IP, specFirstInet6 group addrs = some a → selectAddr addrs group = [a]) := by
  intro addrs group hall hgood
  have hsel : selectAddr addrs group =
      selectFinish (specFirstInet6 group addrs) (specFirstInet4 group addrs) [] := by
    unfold selectAddr
    rw [selectAddrLoop_single group hall addrs none none hgood]
    rfl
  rw [hsel, selectFinish_empty]
  refine ⟨rfl, ?_, ?_⟩
  · cases specFirstInet6 group addrs <;> cases specFirstInet4 group addrs <;> simp
  · intro a ha
    rw [ha]

/-- C2 witness: for an input with an active IPv4 before an active IPv6 (all
families supported) and `family=any`, `allAddresses=false`, the theorem
instantiates to: the result is exactly the first passing IPv6 candidate. -/
theorem selectAddr_single_address_selection_witness :
    selectAddr
      [some { address := "10.0.0.9", status := "active", family := 4 },
       some { address := "2001:db8::7", status := "active", family := 6 }]
      (plainGroup InetFamilyAny false)
      = [{ address := "2001:db8::7", status := "active", family := 6 }] :=
  (selectAddr_single_address_selection
    [some { address := "10.0.0.9", status := "active", family := 4 },
     some { address := "2001:db8::7", status := "active", family := 6 }]
    (plainGroup InetFamilyAny false) rfl
    (by
      intro ip hm _
      simp only [List.mem_cons, List.mem_singleton] at hm
      rcases hm with h | h | h
      · cases h; left; rfl
      · cases h; right; rfl
      · exact absurd h (by simp))).2.2
    { address := "2001:db8::7", status := "active", family := 6 }
    (by decide)

/-- C3 counterexample: with `allAddresses=false`, two configured service
ports and two selected addresses, the endpoint-building code of the service
variant (port truncation followed by the cross-multiplying loops) produces 2
endpoint strings, not exactly 1 as the claim's scenario states. -/
theorem service_fanout_counterexample :
    (serviceTargets
      [{ address := "2001:db8::1", status := "active", family := 6 },
       { address := "2001:db8::2", status := "active", family := 6 }]
      (servicePortsUsed (plainGroup InetFamilyAny false) [9100, 9200])).length = 2
    ∧ (2 : Nat) ≠ 1 := ⟨by decide, by decide⟩

/-- C3 amended: every record the service assembler emits carries exactly the
cross-multiplication of every selected address with every used port, where
the used ports are the group-port override if configured, truncated to the
first port when `allAddresses` is false and more than one port remains; the
record therefore holds `#addresses * #usedPorts` endpoint strings, and with
`allAddresses=false` at most one port is used — so the scenario with 2 ports
and 2 selected addresses would produce 2 endpoint strings (one per address),
not 1. -/
theorem serviceItem_fanout :
    ∀ (group : Group) (dyn : LabelSet) (serv : Service) (r : TargetRecord)
      (sts : List TargetState) (dyn2 : LabelSet),
      serviceItem group dyn serv = GoResult.value (some r, sts, dyn2) →
      r.targets = serviceTargets (selectAddr serv.ipAddresses group)
          (servicePortsUsed group serv.ports)
      ∧ r.targets.length = (selectAddr serv.ipAddresses group).length *
          (servicePortsUsed group serv.ports).length
      ∧ (group.flags.allAddresses = false →
          (servicePortsUsed group serv.ports).length ≤ 1) := by
  intro group dyn serv r sts dyn2 h
  have htar : r.targets = serviceTargets (selectAddr serv.ipAddresses group)
      (servicePortsUsed group serv.ports) := by
    unfold serviceItem at h
    repeat' split at h
    all_goals try simp_all [GoResult.value.injEq, Prod.mk.injEq, Option.some.injEq]
    all_goals repeat' split at h
    all_goals simp_all [GoResult.value.injEq, Prod.mk.injEq, Option.some.injEq]
    all_goals rw [← h.1]
  refine ⟨htar, ?_, fun hall => servicePortsUsed_single serv.ports hall⟩
  rw [htar, serviceTargets_length]

/-- C3 witness: the two-port service fixture with one selected IPv6 address
and no port override yields targets equal to the cross-multiply, of length
`1 * 1` after truncation to the first port. -/
theorem serviceItem_fanout_witness :
    serviceTargets (selectAddr exService.ipAddresses (plainGroup InetFamilyAny false))
        (servicePortsUsed (plainGroup InetFamilyAny false) exService.ports)
      = ["[2001:db8::1]:9100"]
    ∧ (servicePortsUsed (plainGroup InetFamilyAny false) exService.ports).length ≤ 1 := by
  have h := serviceItem_fanout (plainGroup InetFamilyAny false) [] exService
    { labels := lsMerge (lsMerge (lsMerge (lsMerge
        (serviceBaseLabels exService exDevice) []) []) []) [],
      targets := ["[2001:db8::1]:9100"] } [TargetActive] [] (by decide)
  refine ⟨?_, h.2.2 rfl⟩
  have := h.1
  simp only at this
  exact this.symm

/-- C8 counterexample: in the interface-tag variant, a candidate that fails
filter evaluation is excluded (no record) but its disposition is NOT recorded
— the iteration emits no TargetState observation at all, in particular not
SkippedNotMatchingFilters. -/
theorem interface_filter_state_counterexample :
    interfaceItem filterGroup (fun _ _ => Except.ok []) [] exInterface
      = GoResult.value (none, ([] : List TargetState), [])
    ∧ TargetSkippedNotMatchingFilters ∉ ([] : List TargetState) := by
  refine ⟨by decide, by simp⟩

/-- C8 amended: a candidate whose fully assembled label set fails filter
evaluation contributes no record to the group's result list in all three
variants; the device-tag and service variants record the disposition
TargetState=SkippedNotMatchingFilters, while the interface-tag variant
records no TargetState at all for such a candidate. -/
theorem filter_mismatch_disposition :
    (∀ (group : Group) (dyn : LabelSet) (dev : Device) (rest : List Device)
      (cls : LabelSet),
      dev.status = StatusDeviceActive →
      generateCustomFieldLabels dev.customFields = GoResult.value (cls, false) →
      FiltersMatch group.filters
        (lsMerge (lsMerge (lsMerge (deviceBaseLabels dev) cls)
          (if dev.isVirtual then isVmLabels else dyn)) group.labels) = false →
      deviceTagLoop group dyn (dev :: rest) =
        GoResult.map (fun p => (p.1, TargetSkippedNotMatchingFilters :: p.2))
          (deviceTagLoop group (if dev.isVirtual then isVmLabels else dyn) rest))
    ∧ (∀ (group : Group) (dyn : LabelSet) (serv : Service) (dev : Device)
        (rest : List Service) (cls1 cls2 : LabelSet),
        (serv.vm = none ∨ group.flags.includeVMs = true) →
        (match serv.vm with | some d => some d | none => serv.device) = some dev →
        dev.status = StatusDeviceActive →
        generateCustomFieldLabels dev.customFields = GoResult.value (cls1, false) →
        generateCustomFieldLabels serv.customFields = GoResult.value (cls2, false) →
        FiltersMatch group.filters
          (lsMerge (lsMerge (lsMerge (lsMerge (serviceBaseLabels serv dev) cls1) cls2)
            (if dev.isVirtual then isVmLabels else dyn)) group.labels) = false →
        serviceLoop group dyn (serv :: rest) =
          GoResult.map (fun p => (p.1, TargetSkippedNotMatchingFilters :: p.2))
            (serviceLoop group (if dev.isVirtual then isVmLabels else dyn) rest))
    ∧ (∀ (group : Group) (ipLookup : Bool → Nat → Except Unit (List (Option IP)))
        (dyn : LabelSet) (iface : Interface) (dev : Device) (rest : List Interface)
        (cls1 cls2 : LabelSet),
        iface.device = some dev →
        dev.status = StatusDeviceActive →
        iface.enabled = true →
        generateCustomFieldLabels dev.customFields = GoResult.value (cls1, false) →
        generateCustomFieldLabels iface.customFields = GoResult.value (cls2, false) →
        FiltersMatch group.filters
          (lsMerge (lsMerge (lsMerge (lsMerge (deviceBaseLabels dev) cls1) cls2)
            (if dev.isVirtual then isVmLabels else dyn)) group.labels) = false →
        interfaceTagLoop group ipLookup dyn (iface :: rest) =
          interfaceTagLoop group ipLookup (if dev.isVirtual then isVmLabels else dyn) rest) := by
  refine ⟨?_, ?_, ?_⟩
  · intro group dyn dev rest cls hstat hcf hfil
    exact deviceTagLoop_cons_skip (deviceItem_filter_mismatch hstat hcf hfil)
  · intro group dyn serv dev rest cls1 cls2 hvm hdev hstat hcf1 hcf2 hfil
    exact serviceLoop_cons_skip (serviceItem_filter_mismatch hvm hdev hstat hcf1 hcf2 hfil)
  · intro group ipLookup dyn iface dev rest cls1 cls2 hdev hstat hen hcf1 hcf2 hfil
    rw [interfaceTagLoop_cons_skip (interfaceItem_filter_mismatch hdev hstat hen hcf1 hcf2 hfil)]
    cases interfaceTagLoop group ipLookup (if dev.isVirtual then isVmLabels else dyn) rest with
    | panics => rfl
    | value p => rfl

/-- C8 witness: the device-tag variant on the active device fixture, under
the never-matching filter group, excludes the candidate and records
SkippedNotMatchingFilters. -/
theorem filter_mismatch_disposition_witness :
    deviceTagLoop filterGroup [] [exDevice] =
      GoResult.value ([], [TargetSkippedNotMatchingFilters]) := by
  rw [filter_mismatch_disposition.1 filterGroup [] exDevice [] [] rfl rfl (by decide)]
  rfl

end NetboxSD
